import Mathlib

/-!
Verification of the MedAssist remote-access façade (`src/lib/supabase.ts` and the
`useAuth` hook in `src/App.tsx`) against its natural-language specification.

The façade is shallowly embedded: each TypeScript function becomes a pure Lean
function over explicit inputs describing the behaviour of the external service
(whether the SDK promise settles, when, and with what value), and promise
outcomes are reified by the `PResult` type below.  Times are milliseconds
(`Nat`) measured from the start of the operation.
-/

namespace MedAssist

/-- Outcome of a JavaScript promise: it resolves at time `t` with a value,
rejects at time `t` with an `Error` whose message is recorded, or never
settles.  Errors are identified by their message string, which is how the
source constructs them (`new Error(msg)`). -/
inductive PResult (α : Type) where
  | resolved (t : Nat) (v : α)
  | rejected (t : Nat) (msg : String)
  | pending
deriving DecidableEq

/-- `Promise.race([p, timeoutPromise])` where the timeout promise is
`new Promise((_, reject) => setTimeout(() => reject(new Error(msg)), T))`,
the pattern used throughout `authService` and `useAuth`.  The underlying
promise wins when it settles strictly before the timer fires; at the exact
boundary the event-loop order is unspecified and we let the timer win (no
claim depends on the boundary). -/
def promiseRace {α : Type} (p : PResult α) (T : Nat) (msg : String) : PResult α :=
  match p with
  | .resolved t v => if t < T then .resolved t v else .rejected T msg
  | .rejected t m => if t < T then .rejected t m else .rejected T msg
  | .pending => .rejected T msg

/-- The promise settles (resolves or rejects) no later than time `T`. -/
def settlesBy {α : Type} : PResult α → Nat → Prop
  | .resolved t _, T => t ≤ T
  | .rejected t _, T => t ≤ T
  | .pending, _ => False

/-- The promise resolves (with any value, at any time). -/
def isResolvedP {α : Type} : PResult α → Prop
  | .resolved _ _ => True
  | _ => False

theorem promiseRace_settlesBy {α : Type} (p : PResult α) (T : Nat) (msg : String) :
    settlesBy (promiseRace p T msg) T := by
  cases p with
  | resolved t v =>
      by_cases h : t < T
      · simp [promiseRace, settlesBy, h, Nat.le_of_lt h]
      · simp [promiseRace, settlesBy, h]
  | rejected t m =>
      by_cases h : t < T
      · simp [promiseRace, settlesBy, h, Nat.le_of_lt h]
      · simp [promiseRace, settlesBy, h]
  | pending => simp [promiseRace, settlesBy]

theorem promiseRace_eq_of_settlesBy {α : Type} {p : PResult α} {T T' : Nat} (msg : String)
    (h1 : settlesBy p T) (h2 : T < T') : promiseRace p T' msg = p := by
  cases p with
  | resolved t v => simp [promiseRace, Nat.lt_of_le_of_lt (by simpa [settlesBy] using h1) h2]
  | rejected t m => simp [promiseRace, Nat.lt_of_le_of_lt (by simpa [settlesBy] using h1) h2]
  | pending => exact absurd h1 (by simp [settlesBy])

/-- Resolution value of a Supabase SDK auth call: `{ data, error }`.  The SDK
reports upstream failures by resolving with a non-null `error`. -/
structure SdkRes (α : Type) where
  data : Option α
  error : Option String
deriving DecidableEq

/-! ## authService (src/lib/supabase.ts lines 226-399)

Each function takes `configured` (the value of `isServiceConfigured('supabase')`)
and the behaviour `u` of the underlying SDK promise, and returns the outcome
observed by the caller. -/

/-- `authService.signUp`.  After the timeout race, a non-null `error` field is
thrown and rethrown unchanged by the catch block.  On success the source then
attempts `createPatientProfile` / `createDoctorProfile` inside a `try` whose
`catch` only logs, so the profile-creation outcome `profileRes` never affects
the result (its duration is not modelled). -/
def authSignUp {α : Type} (configured : Bool) (u : PResult (SdkRes α))
    (profileRes : Except String Unit) : PResult (Option α) :=
  if !configured then
    .rejected 0 "Authentication service is not available. Please check your configuration."
  else
    match promiseRace u 10000 "Sign up request timed out" with
    | .resolved t r =>
        match r.error with
        | some e => .rejected t e
        | none =>
            -- profile creation: failures are swallowed with a console.log
            match profileRes with
            | _ => .resolved t r.data
    | .rejected t e => .rejected t e
    | .pending => .pending

/-- `authService.signIn`: 8000 ms race; `if (error) throw error`; the catch
block logs and rethrows unchanged. -/
def authSignIn {α : Type} (configured : Bool) (u : PResult (SdkRes α)) : PResult (Option α) :=
  if !configured then
    .rejected 0 "Authentication service is not available. Please check your configuration."
  else
    match promiseRace u 8000 "Sign in request timed out" with
    | .resolved t r =>
        match r.error with
        | some e => .rejected t e
        | none => .resolved t r.data
    | .rejected t e => .rejected t e
    | .pending => .pending

/-- `authService.signOut`: unconfigured returns immediately; otherwise a
5000 ms race whose losing or failing outcome is swallowed by the catch block
("Do not throw error for sign out - just clear local state").  `u` resolves
with the `{ error }` field of the SDK response. -/
def authSignOut (configured : Bool) (u : PResult (Option String)) : PResult Unit :=
  if !configured then
    .resolved 0 ()
  else
    match promiseRace u 5000 "Sign out request timed out" with
    | .resolved t none => .resolved t ()
    | .resolved t (some _) => .resolved t ()   -- `throw error` caught: warn, swallow
    | .rejected t _ => .resolved t ()          -- timeout or rejection caught: warn, swallow
    | .pending => .pending

/-- `authService.getCurrentUser`: unconfigured returns null; otherwise a
5000 ms race; the catch block returns null.  `u` resolves with the pair
`(data.user, error)` of the SDK response; the source reads only `user`. -/
def getCurrentUser (configured : Bool) (u : PResult (Option String × Option String)) :
    PResult (Option String) :=
  if !configured then
    .resolved 0 none
  else
    match promiseRace u 5000 "Get user request timed out" with
    | .resolved t r => .resolved t r.1
    | .rejected t _ => .resolved t none
    | .pending => .pending

theorem authSignIn_settlesBy {α : Type} (configured : Bool) (u : PResult (SdkRes α)) :
    settlesBy (authSignIn configured u) 8000 := by
  cases configured with
  | false => simp [authSignIn, settlesBy]
  | true =>
      have h := promiseRace_settlesBy u 8000 "Sign in request timed out"
      simp only [authSignIn, Bool.not_true, Bool.false_eq_true, if_false]
      cases hr : promiseRace u 8000 "Sign in request timed out" with
      | resolved t r =>
          rw [hr] at h
          have ht : t ≤ 8000 := by simpa [settlesBy] using h
          cases he : r.error with
          | some e => simpa [he, settlesBy] using ht
          | none => simpa [he, settlesBy] using ht
      | rejected t m =>
          rw [hr] at h
          simpa [settlesBy] using h
      | pending => rw [hr] at h; exact absurd h (by simp [settlesBy])

theorem authSignOut_resolves (configured : Bool) (u : PResult (Option String)) :
    ∃ t, t ≤ 5000 ∧ authSignOut configured u = .resolved t () := by
  cases configured with
  | false => exact ⟨0, by simp, by simp [authSignOut]⟩
  | true =>
      have h := promiseRace_settlesBy u 5000 "Sign out request timed out"
      simp only [authSignOut, Bool.not_true, Bool.false_eq_true, if_false]
      cases hr : promiseRace u 5000 "Sign out request timed out" with
      | resolved t r =>
          rw [hr] at h
          cases r with
          | none => exact ⟨t, by simpa [settlesBy] using h, rfl⟩
          | some e => exact ⟨t, by simpa [settlesBy] using h, rfl⟩
      | rejected t m =>
          rw [hr] at h
          exact ⟨t, by simpa [settlesBy] using h, rfl⟩
      | pending => rw [hr] at h; exact absurd h (by simp [settlesBy])

/-! ## Records and JSON-like objects

Domain records passed to the write operations are JSON objects; we embed them
as association lists from field name to (stringified) field value, looked up
first-match.  The object spread `\x7b id: 'mock-id', ...d \x7d` lets the
fields of `d` override the literal `id`, so it is embedded as `d` followed by
the `id` entry under first-match lookup. -/

abbrev Obj := List (String × String)

/-- First-match field lookup on an embedded JSON object. -/
def getField (o : Obj) (k : String) : Option String :=
  match o with
  | [] => none
  | (k', v) :: rest => if k' = k then some v else getField rest k

/-- The placeholder record `\x7b id: 'mock-id', ...d \x7d` returned by the
unconfigured write operations. -/
def mockRecord (d : Obj) : Obj := d ++ [("id", "mock-id")]

theorem getField_append (o₁ o₂ : Obj) (k : String) :
    getField (o₁ ++ o₂) k = ((getField o₁ k).rec (getField o₂ k) (fun v => some v) : Option String) := by
  induction o₁ with
  | nil => simp [getField]
  | cons p rest ih =>
      by_cases h : p.1 = k
      · simp [getField, h]
      · simp [getField, h, ih]

/-- Row of the `doctors` table (the fields the façade reads). -/
structure Doctor where
  id : String
  verification_status : String
  rating : Nat
deriving DecidableEq

/-- The row query issued by `getVerifiedDoctors`:
`.eq('verification_status', 'verified').order('rating', \x7b ascending: false \x7d)`,
i.e. the verified rows sorted by rating descending (the sort is performed by
the backend; we model it as a stable sort under the rating-descending order). -/
def ratingDesc (a b : Doctor) : Prop := b.rating ≤ a.rating

instance : DecidableRel ratingDesc := fun a b => Nat.decLe b.rating a.rating

instance : IsTotal Doctor ratingDesc := ⟨fun a b => Nat.le_total b.rating a.rating⟩

instance : IsTrans Doctor ratingDesc := ⟨fun _ _ _ hab hbc => Nat.le_trans hbc hab⟩

def fetchVerifiedDoctors (db : List Doctor) : List Doctor :=
  List.insertionSort ratingDesc (db.filter (fun d => d.verification_status == "verified"))

/-! ## Result cache (src/lib/supabase.ts lines 4-94)

`queryCache` maps a key to `\x7b data, timestamp \x7d`.  `Map.set` replaces the
entry for a key; consing the new entry in front of a first-match association
list is observationally the same for `Map.get`. -/

def CACHE_DURATION : Nat := 5 * 60 * 1000

structure CacheEntry where
  data : List Doctor
  timestamp : Nat
deriving DecidableEq

abbrev Cache := List (String × CacheEntry)

def cacheLookup (c : Cache) (k : String) : Option CacheEntry :=
  match c with
  | [] => none
  | (k', e) :: rest => if k' = k then some e else cacheLookup rest k

/-- `getCachedData`: return the entry when it exists and is younger than
`CACHE_DURATION`; `now - timestamp` is the JS subtraction, which for the
monotone clock assumed here agrees with truncated `Nat` subtraction.  The
JS truthiness test `if (cached ...)` distinguishes exactly presence, since
the stored payloads are arrays (always truthy). -/
def getCachedData (c : Cache) (now : Nat) (k : String) : Option (List Doctor) :=
  match cacheLookup c k with
  | some e => if now - e.timestamp < CACHE_DURATION then some e.data else none
  | none => none

def setCachedData (c : Cache) (now : Nat) (k : String) (d : List Doctor) : Cache :=
  (k, ⟨d, now⟩) :: c

/-- `getCacheKey('doctors', \x7b verified: true \x7d)` =
`doctors_` ++ `JSON.stringify(\x7b verified: true \x7d)`. -/
def verifiedDoctorsCacheKey : String := "doctors_\x7b\"verified\":true\x7d"

/-! ## Debounce registry (src/lib/supabase.ts lines 96-117)

`debounceQuery(key, fn, delay)` clears any pending timer stored for the key
and stores a fresh timer firing after `delay`.  Crucially, clearing the timer
of an earlier call makes that call's executor die without ever calling
`resolve` or `reject`: the earlier promise never settles.

We simulate a sequence of calls sharing one key, issued at weakly increasing
times `ts` (index = caller).  The simulation state is the pending registry
entry `some (caller index, firing deadline)` or `none`.  A timer whose
deadline has passed before the next call has already fired (executing the
query and resolving only its own caller); a pending timer is cancelled by the
next call.  At the exact deadline boundary we let the timer fire first; no
claim depends on the boundary.  After the trailing call its timer always
fires.  The returned list is the set of caller indices whose query function
actually executes (equivalently, whose promise settles). -/

def goDeb (d : Nat) : List Nat → Nat → Option (Nat × Nat) → List Nat
  | [], _, none => []
  | [], _, some jd => [jd.1]
  | t :: rest, i, none => goDeb d rest (i + 1) (some (i, t + d))
  | t :: rest, i, some jd =>
      if jd.2 ≤ t then jd.1 :: goDeb d rest (i + 1) (some (i, t + d))
      else goDeb d rest (i + 1) (some (i, t + d))

def debounceFired (ts : List Nat) (d : Nat) : List Nat := goDeb d ts 0 none

/-- Outcome observed by one caller of `debounceQuery` (no settle time needed
by the claims). -/
inductive DOutcome (α : Type) where
  | resolves (v : α)
  | neverSettles
deriving DecidableEq

/-- Caller `i`'s promise settles exactly when its own timer fired; `v` is the
value produced by the (successful) query function. -/
def debounceOutcome {α : Type} (ts : List Nat) (d : Nat) (i : Nat) (v : α) : DOutcome α :=
  if i ∈ debounceFired ts d then .resolves v else .neverSettles

/-- All consecutive calls in `ts` are issued within the delay window `d` of
the previous one (so each cancels the previous pending timer). -/
def withinWindow : List Nat → Nat → Bool
  | [], _ => true
  | [_], _ => true
  | t :: t' :: rest, d => decide (t' < t + d) && withinWindow (t' :: rest) d

theorem goDeb_within (d : Nat) : ∀ (ts : List Nat) (t i j : Nat),
    withinWindow (t :: ts) d = true →
    goDeb d ts i (some (j, t + d)) = if ts.isEmpty then [j] else [i + ts.length - 1] := by
  intro ts
  induction ts with
  | nil => intro t i j _; simp [goDeb]
  | cons t' rest ih =>
      intro t i j hw
      simp only [withinWindow, Bool.and_eq_true, decide_eq_true_eq] at hw
      have hnot : ¬ (t + d ≤ t') := Nat.not_le_of_lt hw.1
      simp only [goDeb, if_neg hnot]
      rw [ih t' (i + 1) i hw.2]
      cases rest with
      | nil => simp
      | cons r rs => simp [Nat.add_comm, Nat.add_sub_cancel]; omega

theorem debounceFired_within (ts : List Nat) (d : Nat) (h1 : ts ≠ [])
    (h2 : withinWindow ts d = true) : debounceFired ts d = [ts.length - 1] := by
  cases ts with
  | nil => exact absurd rfl h1
  | cons t rest =>
      show goDeb d rest 1 (some (0, t + d)) = _
      rw [goDeb_within d rest t 1 0 h2]
      cases rest with
      | nil => simp
      | cons r rs => simp

/-! ## dataService (src/lib/supabase.ts lines 402-634)

Each operation takes `configured` and the behaviour of the backend response,
and returns the outcome together with the number of network calls issued.
Backend row responses `\x7b data, error \x7d` are embedded as
`Except String Obj`: a non-null `error` field is thrown by the source
(`if (error) throw error`). -/

/-- `dataService.uploadImage`.  `fileName` is `file.name`; `uploadErr` is the
error of `storage.upload` if any; `pubErr` covers a failure thrown while
retrieving the public URL; `publicUrl` is the retrieved URL on success.  The
catch block returns the same mock URL as the unconfigured branch. -/
def mockUploadUrl (fileName : String) : String :=
  "https://example.com/mock-upload/" ++ fileName

def uploadImage (configured : Bool) (fileName : String) (uploadErr pubErr : Option String)
    (publicUrl : String) : Except String String :=
  if !configured then
    .ok (mockUploadUrl fileName)
  else
    match uploadErr with
    | some _ => .ok (mockUploadUrl fileName)   -- `throw uploadError` caught: log, mock URL
    | none =>
        match pubErr with
        | some _ => .ok (mockUploadUrl fileName)
        | none => .ok publicUrl

/-- `dataService.saveMedicalImage`: the unconfigured branch logs the inputs and
returns `\x7b id: 'mock-id', patient_id: patientId, image_url: imageUrl \x7d`
(the image type and AI analysis are logged but not part of the record). -/
def saveMedicalImage (configured : Bool) (patientId imageUrl imageType : String)
    (aiAnalysis : Obj) (net : Except String Obj) : Except String Obj × Nat :=
  if !configured then
    (.ok [("id", "mock-id"), ("patient_id", patientId), ("image_url", imageUrl)], 0)
  else
    (net, 1)   -- `if (error) throw error` / catch logs and rethrows unchanged

/-- `dataService.saveSymptomAnalysis`. -/
def saveSymptomAnalysis (configured : Bool) (analysisData : Obj) (net : Except String Obj) :
    Except String Obj × Nat :=
  if !configured then (.ok (mockRecord analysisData), 0) else (net, 1)

/-- `dataService.saveChatSession`. -/
def saveChatSession (configured : Bool) (sessionData : Obj) (net : Except String Obj) :
    Except String Obj × Nat :=
  if !configured then (.ok (mockRecord sessionData), 0) else (net, 1)

/-- `dataService.createAppointment`. -/
def createAppointment (configured : Bool) (appointmentData : Obj) (net : Except String Obj) :
    Except String Obj × Nat :=
  if !configured then (.ok (mockRecord appointmentData), 0) else (net, 1)

/-- `dataService.createEmergencyAlert`. -/
def createEmergencyAlert (configured : Bool) (alertData : Obj) (net : Except String Obj) :
    Except String Obj × Nat :=
  if !configured then (.ok (mockRecord alertData), 0) else (net, 1)

/-- `dataService.getPatientProfile`: unconfigured throws a Configuration
error; otherwise the single-row response is returned, a non-null error field
thrown unchanged. -/
def getPatientProfile (configured : Bool) (net : Except String Obj) :
    Except String Obj × Nat :=
  if !configured then (.error "Supabase not configured", 0) else (net, 1)

/-- `dataService.getDoctorProfile`: same shape as `getPatientProfile`. -/
def getDoctorProfile (configured : Bool) (net : Except String Obj) :
    Except String Obj × Nat :=
  if !configured then (.error "Supabase not configured", 0) else (net, 1)

deriving instance DecidableEq for Except

/-- Result of one `dataService.getVerifiedDoctors` call: the outcome, the
time it settles, the number of network queries issued, and the cache
afterwards. -/
structure GVDResult where
  result : Except String (List Doctor)
  settleTime : Nat
  netCalls : Nat
  cacheAfter : Cache
deriving DecidableEq

/-- One `getVerifiedDoctors` call issued at `now` with no other call sharing
the debounce key in flight (so its timer fires after the 300 ms delay).
`db` is the backend table; `netErr` is a backend failure, if any; on failure
the catch block logs and resolves with `[]` (nothing is cached). -/
def getVerifiedDoctorsOnce (configured : Bool) (db : List Doctor) (netErr : Option String)
    (now : Nat) (cache : Cache) : GVDResult :=
  if !configured then
    ⟨.ok [], now, 0, cache⟩
  else
    match getCachedData cache now verifiedDoctorsCacheKey with
    | some d => ⟨.ok d, now, 0, cache⟩
    | none =>
        match netErr with
        | some _ => ⟨.ok [], now + 300, 1, cache⟩
        | none =>
            let d := fetchVerifiedDoctors db
            ⟨.ok d, now + 300, 1, setCachedData cache (now + 300) verifiedDoctorsCacheKey d⟩

/-! ## useAuth hook (src/App.tsx)

`AuthState` is the pair of the `user` and `profile` React states;
`user = none` is the unauthenticated state. -/

structure EnhancedUser where
  id : String
  userType : String
  profile : Option Obj
deriving DecidableEq

structure AuthState where
  user : Option EnhancedUser
  profile : Option Obj
deriving DecidableEq

/-- `user_metadata?.user_type || 'patient'`: the JS falsy values a string
metadata field can take are absence and the empty string. -/
def deriveUserType (meta : Option String) : String :=
  match meta with
  | some s => if s = "" then "patient" else s
  | none => "patient"

/-- `loadUserProfile` (src/App.tsx lines 238-266): derive the user type, try
the matching profile lookup through the façade, swallow a lookup failure
(log only), then set the user (authenticated) and the profile state. -/
def loadUserProfile (uid : String) (meta : Option String) (configured : Bool)
    (patientNet doctorNet : Except String Obj) : AuthState :=
  let userType := deriveUserType meta
  let lookup :=
    if userType = "patient" then (getPatientProfile configured patientNet).1
    else (getDoctorProfile configured doctorNet).1
  let userProfile := lookup.toOption
  { user := some ⟨uid, userType, userProfile⟩, profile := userProfile }

/-- `getInitialSession` (src/App.tsx lines 190-213): 8000 ms race on the
session fetch; a session with a user loads the profile; every failure is
caught and only logged (offline mode), leaving the state untouched.
`sessionRes` resolves with `session?.user` embedded as `(id, user_type)`. -/
def getInitialSession (sessionRes : PResult (Option (String × Option String)))
    (configured : Bool) (patientNet doctorNet : Except String Obj)
    (st0 : AuthState) : AuthState :=
  match promiseRace sessionRes 8000 "Session timeout" with
  | .resolved _ (some su) => loadUserProfile su.1 su.2 configured patientNet doctorNet
  | .resolved _ none => st0
  | .rejected _ _ => st0
  | .pending => st0

/-- `useAuth.signIn` (src/App.tsx lines 287-304): 12000 ms race over
`authService.signIn`; the catch block logs and rethrows unchanged; it never
touches the `user`/`profile` state (only the loading flag). -/
def useAuthSignIn {α : Type} (configured : Bool) (u : PResult (SdkRes α))
    (st : AuthState) : PResult (Option α) × AuthState :=
  (promiseRace (authSignIn configured u) 12000
    "Sign in timeout - please check your connection and try again", st)

/-- `useAuth.signUp` (src/App.tsx lines 268-285): 15000 ms race over
`authService.signUp`. -/
def useAuthSignUp {α : Type} (configured : Bool) (u : PResult (SdkRes α))
    (profileRes : Except String Unit) (st : AuthState) : PResult (Option α) × AuthState :=
  (promiseRace (authSignUp configured u profileRes) 15000
    "Sign up timeout - please try again", st)

/-- `useAuth.signOut` (src/App.tsx lines 306-327): 8000 ms race over
`authService.signOut`; on success the state is cleared; the catch block also
clears the state and only then rethrows. -/
def useAuthSignOut (configured : Bool) (u : PResult (Option String))
    (st : AuthState) : PResult Unit × AuthState :=
  match promiseRace (authSignOut configured u) 8000 "Sign out timeout" with
  | .resolved t _ => (.resolved t (), { user := none, profile := none })
  | .rejected t e => (.rejected t e, { user := none, profile := none })
  | .pending => (.pending, st)

/-! ## Claim theorems -/

/-- C3: with configuration absent, every read operation of the façade returns
an empty collection (`getVerifiedDoctors` resolves with `[]`) or null
(`getCurrentUser` resolves with null) without any network call and without
raising, except the profile lookups (`getPatientProfile`,
`getDoctorProfile`), which raise the Configuration error
"Supabase not configured". -/
theorem claim_C3_reads_unconfigured :
    (∀ db netErr now cache,
      getVerifiedDoctorsOnce false db netErr now cache = ⟨.ok [], now, 0, cache⟩)
    ∧ (∀ net, getPatientProfile false net = (.error "Supabase not configured", 0))
    ∧ (∀ net, getDoctorProfile false net = (.error "Supabase not configured", 0))
    ∧ (∀ u, getCurrentUser false u = .resolved 0 none) :=
  ⟨fun _ _ _ _ => rfl, fun _ => rfl, fun _ => rfl, fun _ => rfl⟩

/-- C9: `uploadImage` never rejects: with configuration absent, or when the
upload or the public-URL retrieval fails for any reason, it resolves with the
placeholder URL `https://example.com/mock-upload/` followed by the original
file name; on success it resolves with the retrieved public URL; in every
case the outcome is a resolution. -/
theorem claim_C9_uploadImage_never_rejects :
    (∀ f ue pe pu, uploadImage false f ue pe pu = .ok (mockUploadUrl f))
    ∧ (∀ f e pe pu, uploadImage true f (some e) pe pu = .ok (mockUploadUrl f))
    ∧ (∀ f e pu, uploadImage true f none (some e) pu = .ok (mockUploadUrl f))
    ∧ (∀ f pu, uploadImage true f none none pu = .ok pu)
    ∧ (∀ c f ue pe pu, ∃ s, uploadImage c f ue pe pu = .ok s)
    ∧ (∀ f, mockUploadUrl f = "https://example.com/mock-upload/" ++ f) := by
  refine ⟨fun _ _ _ _ => rfl, fun _ _ _ _ => rfl, fun _ _ _ => rfl, fun _ _ => rfl,
    fun c f ue pe pu => ?_, fun _ => rfl⟩
  cases c with
  | false => exact ⟨mockUploadUrl f, rfl⟩
  | true =>
      cases ue with
      | some e => exact ⟨mockUploadUrl f, rfl⟩
      | none =>
          cases pe with
          | some e => exact ⟨mockUploadUrl f, rfl⟩
          | none => exact ⟨pu, rfl⟩

/-- C10: `getCurrentUser` never rejects: with configuration absent it
resolves with null immediately; when the underlying fetch never settles it
resolves with null at the 5000 ms timeout; when the underlying fetch rejects
it resolves with null; on success it resolves with the fetched user — so the
caller cannot distinguish "no user" from "fetch failed". -/
theorem claim_C10_getCurrentUser_never_rejects :
    (∀ c u, isResolvedP (getCurrentUser c u))
    ∧ (∀ u, getCurrentUser false u = .resolved 0 none)
    ∧ (getCurrentUser true .pending = .resolved 5000 none)
    ∧ (∀ t e, getCurrentUser true (.rejected t e)
        = .resolved (if t < 5000 then t else 5000) none)
    ∧ (∀ user err, getCurrentUser true (.resolved 0 (user, err)) = .resolved 0 user) := by
  refine ⟨fun c u => ?_, fun _ => rfl, rfl, fun t e => ?_, fun user err => ?_⟩
  · cases c with
    | false => simp [getCurrentUser, isResolvedP]
    | true =>
        have h := promiseRace_settlesBy u 5000 "Get user request timed out"
        simp only [getCurrentUser, Bool.not_true, Bool.false_eq_true, if_false]
        cases hr : promiseRace u 5000 "Get user request timed out" with
        | resolved t r => simp [isResolvedP]
        | rejected t m => simp [isResolvedP]
        | pending => rw [hr] at h; exact absurd h (by simp [settlesBy])
  · by_cases ht : t < 5000 <;> simp [getCurrentUser, promiseRace, ht]
  · simp [getCurrentUser, promiseRace]

/-- C7: when a session becomes available, the user-type tag is derived from
the session metadata (`user_metadata?.user_type`), defaulting to "patient"
when the field is absent (or empty, the only other falsy string); the
matching profile record is looked up (patients table for "patient", doctors
table otherwise); a lookup failure of any kind — including the Configuration
error of an unconfigured façade — is swallowed, and the user is still set as
authenticated with a null profile. -/
theorem claim_C7_profile_load_failure_swallowed :
    (deriveUserType none = "patient")
    ∧ (deriveUserType (some "") = "patient")
    ∧ (∀ uid meta c pn dn, (loadUserProfile uid meta c pn dn).user.isSome = true)
    ∧ (∀ uid meta c e e', loadUserProfile uid meta c (.error e) (.error e')
        = ⟨some ⟨uid, deriveUserType meta, none⟩, none⟩)
    ∧ (∀ uid meta pn dn, loadUserProfile uid meta false pn dn
        = ⟨some ⟨uid, deriveUserType meta, none⟩, none⟩)
    ∧ (∀ uid meta p d, loadUserProfile uid meta true (.ok p) (.ok d)
        = ⟨some ⟨uid, deriveUserType meta,
            some (if deriveUserType meta = "patient" then p else d)⟩,
           some (if deriveUserType meta = "patient" then p else d)⟩) := by
  refine ⟨rfl, rfl, fun _ _ _ _ _ => rfl, fun uid meta c e e' => ?_,
    fun uid meta pn dn => ?_, fun uid meta p d => ?_⟩
  · by_cases h : deriveUserType meta = "patient" <;>
      cases c <;>
      simp [loadUserProfile, getPatientProfile, getDoctorProfile, Except.toOption, h]
  · by_cases h : deriveUserType meta = "patient" <;>
      simp [loadUserProfile, getPatientProfile, getDoctorProfile, Except.toOption, h]
  · by_cases h : deriveUserType meta = "patient" <;>
      simp [loadUserProfile, getPatientProfile, getDoctorProfile, Except.toOption, h]

/-- C5 counterexample: with configuration present and the backend reporting
the upstream failure "upstream failure", `getVerifiedDoctors` does not
re-raise it: it resolves with the empty list (the catch block logs and
returns `[]`), contradicting the claim that every façade operation re-raises
upstream errors unchanged. -/
theorem claim_C5_counterexample :
    (getVerifiedDoctorsOnce true [] (some "upstream failure") 0 []).result = .ok []
    ∧ (getVerifiedDoctorsOnce true [] (some "upstream failure") 0 []).result
        ≠ .error "upstream failure" :=
  ⟨rfl, by decide⟩

/-- C5 amended: upstream failures are logged and re-raised unchanged by the
row write operations (`saveMedicalImage`, `saveSymptomAnalysis`,
`saveChatSession`, `createAppointment`, `createEmergencyAlert`) and surfaced
unchanged by `signUp`/`signIn`; but `getVerifiedDoctors` swallows them and
resolves with the empty list, `uploadImage` resolves with the mock URL,
and `signOut` and `getCurrentUser` swallow them as well. -/
theorem claim_C5_amended_upstream_propagation :
    (∀ e p iu it ai, saveMedicalImage true p iu it ai (.error e) = (.error e, 1))
    ∧ (∀ e d, saveSymptomAnalysis true d (.error e) = (.error e, 1))
    ∧ (∀ e d, saveChatSession true d (.error e) = (.error e, 1))
    ∧ (∀ e d, createAppointment true d (.error e) = (.error e, 1))
    ∧ (∀ e d, createEmergencyAlert true d (.error e) = (.error e, 1))
    ∧ (∀ e pr, authSignUp (α := Unit) true (.resolved 0 ⟨none, some e⟩) pr = .rejected 0 e)
    ∧ (∀ e, authSignIn (α := Unit) true (.resolved 0 ⟨none, some e⟩) = .rejected 0 e)
    ∧ (∀ e db now, getVerifiedDoctorsOnce true db (some e) now [] = ⟨.ok [], now + 300, 1, []⟩)
    ∧ (∀ e f pe pu, uploadImage true f (some e) pe pu = .ok (mockUploadUrl f))
    ∧ (∀ e, authSignOut true (.resolved 0 (some e)) = .resolved 0 ())
    ∧ (∀ e, getCurrentUser true (.resolved 0 (none, some e)) = .resolved 0 none) :=
  ⟨fun _ _ _ _ _ => rfl, fun _ _ => rfl, fun _ _ => rfl, fun _ _ => rfl, fun _ _ => rfl,
   fun _ _ => rfl, fun _ => rfl, fun _ _ _ => rfl, fun _ _ _ _ => rfl,
   fun _ => rfl, fun _ => rfl⟩

/-- C6 counterexample: the remote sign-out reports the upstream failure
"Network error"; the local state is cleared, but `useAuth.signOut` resolves
without any error — the failure is swallowed inside `authService.signOut`,
so the call never reports the error to its caller, contradicting the claim
that the error is reported after clearing. -/
theorem claim_C6_counterexample :
    useAuthSignOut true (.resolved 100 (some "Network error"))
      ⟨some ⟨"u1", "patient", some [("name", "Pat")]⟩, some [("name", "Pat")]⟩
    = (.resolved 100 (), ⟨none, none⟩) := by
  decide

/-- C6 amended: on every sign-out — remote success, upstream failure, or
timeout of the underlying call — the local user and profile state are
cleared, and `useAuth.signOut` always resolves without error within the
service-layer 5000 ms bound: remote failures are swallowed by
`authService.signOut`, so no error is ever reported to the caller. -/
theorem claim_C6_amended_signout_always_clears :
    ∀ c u st, (useAuthSignOut c u st).2 = ⟨none, none⟩
      ∧ ∃ t, t ≤ 5000 ∧ (useAuthSignOut c u st).1 = .resolved t () := by
  intro c u st
  obtain ⟨t, ht, he⟩ := authSignOut_resolves c u
  have hr : promiseRace (authSignOut c u) 8000 "Sign out timeout" = .resolved t () := by
    rw [he]
    exact promiseRace_eq_of_settlesBy (T := 5000) "Sign out timeout"
      (by simpa [settlesBy] using ht) (by omega)
  exact ⟨by simp [useAuthSignOut, hr], t, ht, by simp [useAuthSignOut, hr]⟩

/-- C2 counterexample: `authService.signOut` with an underlying call that
never settles does not fail with a Timeout error — the timeout is caught and
swallowed, and the call resolves at 5000 ms; and a sign-in whose underlying
SDK call never settles rejects at 8000 ms with the service-layer message
"Sign in request timed out", which is not the 12-second connection-issue
message of the hook. -/
theorem claim_C2_counterexample :
    authSignOut true .pending = .resolved 5000 ()
    ∧ (useAuthSignIn (α := Unit) true .pending ⟨none, none⟩).1
        = .rejected 8000 "Sign in request timed out"
    ∧ "Sign in request timed out"
        ≠ "Sign in timeout - please check your connection and try again" :=
  ⟨rfl, rfl, by decide⟩

/-- C2 amended: when the underlying call never settles, `signUp` rejects at
10000 ms and `signIn` at 8000 ms with their operation-specific Timeout
messages, and that service-layer rejection is exactly what the hook caller
observes (the hook-level 12000 ms race is transparent because the service
layer always settles within 8000 ms, so the connection-issue message never
surfaces, and the hook state — unauthenticated or not — is untouched by
sign-in); `signOut` and `getCurrentUser` swallow their timeouts and resolve
(with unit resp. null) at 5000 ms; the initial session fetch swallows its
8000 ms timeout, leaving the state untouched. -/
theorem claim_C2_amended_timeout_discipline :
    (∀ pr, authSignUp (α := Unit) true .pending pr
        = .rejected 10000 "Sign up request timed out")
    ∧ (authSignIn (α := Unit) true .pending = .rejected 8000 "Sign in request timed out")
    ∧ (∀ st, useAuthSignIn (α := Unit) true .pending st
        = (.rejected 8000 "Sign in request timed out", st))
    ∧ (∀ c u st, (useAuthSignIn (α := Unit) c u st).1 = authSignIn c u)
    ∧ (∀ c u st, (useAuthSignIn (α := Unit) c u st).2 = st)
    ∧ (authSignOut true .pending = .resolved 5000 ())
    ∧ (getCurrentUser true .pending = .resolved 5000 none)
    ∧ (∀ c pn dn st0, getInitialSession .pending c pn dn st0 = st0) := by
  refine ⟨fun _ => rfl, rfl, fun _ => rfl, fun c u st => ?_, fun _ _ _ => rfl,
    rfl, rfl, fun _ _ _ _ => rfl⟩
  exact promiseRace_eq_of_settlesBy (T := 8000)
    "Sign in timeout - please check your connection and try again"
    (authSignIn_settlesBy c u) (by omega)

theorem getField_mockRecord_of_some {d : Obj} {k v : String} (h : getField d k = some v) :
    getField (mockRecord d) k = some v := by
  induction d with
  | nil => simp [getField] at h
  | cons p rest ih =>
      by_cases hp : p.1 = k
      · simp [getField, hp] at h ⊢
        simpa [mockRecord, getField, hp] using h
      · simp [getField, hp] at h
        simpa [mockRecord, getField, hp] using ih h

theorem getField_mockRecord_id_of_none {d : Obj} (h : getField d "id" = none) :
    getField (mockRecord d) "id" = some "mock-id" := by
  induction d with
  | nil => rfl
  | cons p rest ih =>
      by_cases hp : p.1 = "id"
      · simp [getField, hp] at h
      · simp [getField, hp] at h
        simpa [mockRecord, getField, hp] using ih h

/-- C8 counterexample: `saveMedicalImage` called without configuration, with
image type "xray" and a non-empty AI analysis, resolves with the record
`\x7b id: 'mock-id', patient_id, image_url \x7d` — a record with no
`image_type` field, so the synthesized placeholder does not carry the
caller's full input payload as the claim states. -/
theorem claim_C8_counterexample :
    (saveMedicalImage false "p1" "https://img.example/x.png" "xray"
        [("confidence", "90")] (.ok [])).1
      = .ok [("id", "mock-id"), ("patient_id", "p1"), ("image_url", "https://img.example/x.png")]
    ∧ getField [("id", "mock-id"), ("patient_id", "p1"),
        ("image_url", "https://img.example/x.png")] "image_type" = none :=
  ⟨rfl, rfl⟩

/-- C8 amended: with configuration absent, the four spread-based write
operations (`createAppointment`, `createEmergencyAlert`, `saveChatSession`,
`saveSymptomAnalysis`) resolve, without any network call, with the
placeholder `\x7b id: 'mock-id', ...input \x7d` — every field of the input
payload is carried over, and the sentinel identifier `mock-id` is present
whenever the input does not itself carry an `id` field (an input `id`
overrides the sentinel); `saveMedicalImage`, however, resolves with a
placeholder carrying only the patient id and image URL next to the sentinel
(the image type and AI analysis are logged, not returned); the events are
logged locally. -/
theorem claim_C8_amended_unconfigured_writes (d : Obj) :
    (∀ net, createAppointment false d net = (.ok (mockRecord d), 0))
    ∧ (∀ net, createEmergencyAlert false d net = (.ok (mockRecord d), 0))
    ∧ (∀ net, saveChatSession false d net = (.ok (mockRecord d), 0))
    ∧ (∀ net, saveSymptomAnalysis false d net = (.ok (mockRecord d), 0))
    ∧ (∀ k v, getField d k = some v → getField (mockRecord d) k = some v)
    ∧ (getField d "id" = none → getField (mockRecord d) "id" = some "mock-id")
    ∧ (∀ p iu it ai net, saveMedicalImage false p iu it ai net
        = (.ok [("id", "mock-id"), ("patient_id", p), ("image_url", iu)], 0)) :=
  ⟨fun _ => rfl, fun _ => rfl, fun _ => rfl, fun _ => rfl,
   fun _ _ h => getField_mockRecord_of_some h,
   fun h => getField_mockRecord_id_of_none h,
   fun _ _ _ _ _ => rfl⟩

/-- C8 witness: the amended statement evaluated at the appointment payload
`\x7b patient_id: 'p7' \x7d`. -/
theorem claim_C8_witness :
    createAppointment false [("patient_id", "p7")] (.ok [])
      = (.ok (mockRecord [("patient_id", "p7")]), 0)
    ∧ getField (mockRecord [("patient_id", "p7")]) "patient_id" = some "p7"
    ∧ getField (mockRecord [("patient_id", "p7")]) "id" = some "mock-id" := by
  have h := claim_C8_amended_unconfigured_writes [("patient_id", "p7")]
  exact ⟨h.1 (.ok []), h.2.2.2.2.1 "patient_id" "p7" (by decide), h.2.2.2.2.2.1 (by decide)⟩

/-- C1 counterexample: two `getVerifiedDoctors` calls sharing the debounce
key, issued at 0 ms and 100 ms — within the 300 ms delay window, on a fresh
(empty) cache so both reach `debounceQuery`.  Exactly one network query
executes (the second caller's), but the first caller's promise never
settles: clearing its timer discards its executor without resolving it,
contradicting the claim that every one of the N callers resolves with the
result of the single execution. -/
theorem claim_C1_counterexample :
    (∀ now, getCachedData [] now verifiedDoctorsCacheKey = none)
    ∧ debounceFired [0, 100] 300 = [1]
    ∧ debounceOutcome [0, 100] 300 0 (fetchVerifiedDoctors [⟨"d1", "verified", 5⟩])
        = .neverSettles
    ∧ debounceOutcome [0, 100] 300 1 (fetchVerifiedDoctors [⟨"d1", "verified", 5⟩])
        = .resolves [⟨"d1", "verified", 5⟩] :=
  ⟨fun _ => rfl, by decide, by decide, by decide⟩

/-- C1 amended: for N calls sharing a debounced key, each issued within the
300 ms delay window of the previous one, exactly one underlying network call
executes — that of the last caller — and only the last caller's promise
resolves, with the result of that single execution; the promises of the
earlier N-1 callers never settle.  For two `getVerifiedDoctors` calls in
quick succession on a fresh cache this means one network query, whose result
is the verified-only, rating-descending doctor list, delivered to the second
caller alone. -/
theorem claim_C1_amended_debounce_coalescing (ts : List Nat) (d : Nat) (v : List Doctor)
    (h1 : ts ≠ []) (h2 : withinWindow ts d = true) :
    debounceFired ts d = [ts.length - 1]
    ∧ (debounceFired ts d).length = 1
    ∧ debounceOutcome ts d (ts.length - 1) v = .resolves v
    ∧ (∀ i, i < ts.length - 1 → debounceOutcome ts d i v = .neverSettles)
    ∧ (∀ db, (fetchVerifiedDoctors db).Sorted ratingDesc)
    ∧ (∀ db x, x ∈ fetchVerifiedDoctors db → x.verification_status = "verified") := by
  have hf := debounceFired_within ts d h1 h2
  refine ⟨hf, by rw [hf]; rfl, ?_, fun i hi => ?_, fun db => ?_, fun db x hx => ?_⟩
  · simp [debounceOutcome, hf]
  · simp [debounceOutcome, hf, Nat.ne_of_lt hi]
  · exact List.sorted_insertionSort ratingDesc _
  · have hm : x ∈ db.filter (fun d => d.verification_status == "verified") := by
      simpa [fetchVerifiedDoctors] using hx
    simpa using (List.mem_filter.mp hm).2

/-- C1 witness: the amended statement evaluated at three calls at 0, 100 and
250 ms with the 300 ms delay. -/
theorem claim_C1_witness :
    debounceFired [0, 100, 250] 300 = [2]
    ∧ debounceOutcome [0, 100, 250] 300 2 ([⟨"d1", "verified", 5⟩] : List Doctor)
        = .resolves [⟨"d1", "verified", 5⟩]
    ∧ debounceOutcome [0, 100, 250] 300 0 ([⟨"d1", "verified", 5⟩] : List Doctor)
        = .neverSettles := by
  have h := claim_C1_amended_debounce_coalescing [0, 100, 250] 300
    [⟨"d1", "verified", 5⟩] (by decide) (by decide)
  exact ⟨h.1, h.2.2.1, h.2.2.2.1 0 (by decide)⟩

theorem cacheLookup_cons_self (c : Cache) (e : CacheEntry) (k : String) :
    cacheLookup ((k, e) :: c) k = some e := by
  show (if k = k then some e else cacheLookup c k) = some e
  rw [if_pos rfl]

/-- First of two successive successful `getVerifiedDoctors` calls, issued at
`t1` on an empty cache. -/
def twoCallFirst (db : List Doctor) (t1 : Nat) : GVDResult :=
  getVerifiedDoctorsOnce true db none t1 []

/-- Second call, issued at `t2` against the cache left by the first. -/
def twoCallSecond (db : List Doctor) (t1 t2 : Nat) : GVDResult :=
  getVerifiedDoctorsOnce true db none t2 (twoCallFirst db t1).cacheAfter

/-- C4: cached-query behaviour.  A cache entry younger than 5 minutes is
returned synchronously (settle time = call time) with the identical payload,
no network call, cache untouched — even if the network would fail.  A miss
triggers exactly one underlying (debounced) invocation whose result is
stored with the timestamp of its completion before being returned.
Composing two successful calls: a second call issued after the first
completed and within 5 minutes of the capture returns the identical payload
with no new invocation; a second call issued after the staleness window
triggers exactly one new invocation and re-stores the result with its own
completion timestamp. -/
theorem claim_C4_cache_freshness (db : List Doctor) (netErr : Option String)
    (now t1 t2 : Nat) (cache : Cache) (d0 : List Doctor) (tsp : Nat) :
    (cacheLookup cache verifiedDoctorsCacheKey = some ⟨d0, tsp⟩ →
      now - tsp < CACHE_DURATION →
      getVerifiedDoctorsOnce true db netErr now cache = ⟨.ok d0, now, 0, cache⟩)
    ∧ (getCachedData cache now verifiedDoctorsCacheKey = none →
      getVerifiedDoctorsOnce true db none now cache
        = ⟨.ok (fetchVerifiedDoctors db), now + 300, 1,
            setCachedData cache (now + 300) verifiedDoctorsCacheKey
              (fetchVerifiedDoctors db)⟩)
    ∧ (t1 + 300 ≤ t2 → t2 - (t1 + 300) < CACHE_DURATION →
        (twoCallSecond db t1 t2).result = (twoCallFirst db t1).result
        ∧ (twoCallSecond db t1 t2).netCalls = 0
        ∧ (twoCallSecond db t1 t2).settleTime = t2)
    ∧ (CACHE_DURATION ≤ t2 - (t1 + 300) →
        (twoCallSecond db t1 t2).netCalls = 1
        ∧ cacheLookup (twoCallSecond db t1 t2).cacheAfter verifiedDoctorsCacheKey
            = some ⟨fetchVerifiedDoctors db, t2 + 300⟩) := by
  have hfirst : twoCallFirst db t1
      = ⟨.ok (fetchVerifiedDoctors db), t1 + 300, 1,
         [(verifiedDoctorsCacheKey, ⟨fetchVerifiedDoctors db, t1 + 300⟩)]⟩ := rfl
  refine ⟨fun hl hfresh => ?_, fun hmiss => ?_, fun _ hfresh => ?_, fun hstale => ?_⟩
  · simp [getVerifiedDoctorsOnce, getCachedData, hl, hfresh]
  · simp [getVerifiedDoctorsOnce, hmiss, setCachedData]
  · have hhit : getCachedData
        [(verifiedDoctorsCacheKey, ⟨fetchVerifiedDoctors db, t1 + 300⟩)] t2
        verifiedDoctorsCacheKey = some (fetchVerifiedDoctors db) := by
      simp [getCachedData, cacheLookup, hfresh]
    simp [twoCallSecond, getVerifiedDoctorsOnce, hfirst, hhit]
  · have hmiss : getCachedData
        [(verifiedDoctorsCacheKey, ⟨fetchVerifiedDoctors db, t1 + 300⟩)] t2
        verifiedDoctorsCacheKey = none := by
      simp [getCachedData, cacheLookup, Nat.not_lt.mpr hstale]
    have h2 : twoCallSecond db t1 t2
        = ⟨.ok (fetchVerifiedDoctors db), t2 + 300, 1,
           (verifiedDoctorsCacheKey, ⟨fetchVerifiedDoctors db, t2 + 300⟩)
             :: [(verifiedDoctorsCacheKey, ⟨fetchVerifiedDoctors db, t1 + 300⟩)]⟩ := by
      simp [twoCallSecond, getVerifiedDoctorsOnce, hfirst, hmiss, setCachedData]
    rw [h2]
    exact ⟨rfl, cacheLookup_cons_self _ _ _⟩

/-- C4 witness: the fresh-hit part evaluated at a cache entry captured at
500000 ms and read at 700000 ms (age 200000 ms < 300000 ms), and the
two-call composition evaluated at `t1 = 0`, `t2 = 1000` (hit) and
`t2 = 600000` (stale refetch). -/
theorem claim_C4_witness :
    getVerifiedDoctorsOnce true [] (some "down") 700000
        [(verifiedDoctorsCacheKey, ⟨[⟨"d1", "verified", 4⟩], 500000⟩)]
      = ⟨.ok [⟨"d1", "verified", 4⟩], 700000, 0,
         [(verifiedDoctorsCacheKey, ⟨[⟨"d1", "verified", 4⟩], 500000⟩)]⟩
    ∧ (twoCallSecond [⟨"d1", "verified", 4⟩] 0 1000).netCalls = 0
    ∧ (twoCallSecond [⟨"d1", "verified", 4⟩] 0 1000).result
        = (twoCallFirst [⟨"d1", "verified", 4⟩] 0).result
    ∧ (twoCallSecond [⟨"d1", "verified", 4⟩] 0 600000).netCalls = 1 := by
  have ha := (claim_C4_cache_freshness [] (some "down") 700000 0 0
    [(verifiedDoctorsCacheKey, ⟨[⟨"d1", "verified", 4⟩], 500000⟩)]
    [⟨"d1", "verified", 4⟩] 500000).1 rfl (by decide)
  have hb := (claim_C4_cache_freshness [⟨"d1", "verified", 4⟩] none 0 0 1000 [] [] 0).2.2.1
    (by decide) (by decide)
  have hc := (claim_C4_cache_freshness [⟨"d1", "verified", 4⟩] none 0 0 600000 [] [] 0).2.2.2
    (by decide)
  exact ⟨ha, hb.2.1, hb.1, hc.1⟩

end MedAssist
